import Mathlib

/-!
Verification of the page-load telemetry capture component (NavigationPlugin).

The component observes the navigation-timing facilities of a host window and
emits one normalized performance event per page load. Timestamps are modelled
as rationals. Host interactions (listener registration and removal, record
calls) are modelled as an explicit list of actions returned by each operation,
and the mutable plugin fields are modelled as an explicit state record.
-/

/-- Level 1 input: the legacy flat timing record (window.performance.timing),
carrying absolute epoch-relative timestamps. -/
structure PerformanceTiming where
  navigationStart : ℚ
  unloadEventStart : ℚ
  unloadEventEnd : ℚ
  redirectStart : ℚ
  redirectEnd : ℚ
  fetchStart : ℚ
  domainLookupStart : ℚ
  domainLookupEnd : ℚ
  connectStart : ℚ
  connectEnd : ℚ
  secureConnectionStart : ℚ
  requestStart : ℚ
  responseStart : ℚ
  responseEnd : ℚ
  domInteractive : ℚ
  domContentLoadedEventStart : ℚ
  domContentLoadedEventEnd : ℚ
  domComplete : ℚ
  loadEventStart : ℚ
  loadEventEnd : ℚ
  deriving DecidableEq

/-- Level 2 input: a modern PerformanceNavigationTiming entry, with timestamps
relative to navigation start plus transfer sizes, protocol, worker timing and
redirect count. -/
structure PerformanceNavigationTiming where
  initiatorType : String
  type : String
  startTime : ℚ
  unloadEventStart : ℚ
  unloadEventEnd : ℚ
  redirectCount : ℕ
  redirectStart : ℚ
  redirectEnd : ℚ
  workerStart : ℚ
  fetchStart : ℚ
  domainLookupStart : ℚ
  domainLookupEnd : ℚ
  nextHopProtocol : String
  connectStart : ℚ
  connectEnd : ℚ
  secureConnectionStart : ℚ
  requestStart : ℚ
  responseStart : ℚ
  responseEnd : ℚ
  domInteractive : ℚ
  domContentLoadedEventStart : ℚ
  domContentLoadedEventEnd : ℚ
  domComplete : ℚ
  loadEventStart : ℚ
  loadEventEnd : ℚ
  duration : ℚ
  transferSize : ℚ
  encodedBodySize : ℚ
  decodedBodySize : ℚ
  deriving DecidableEq

/-- Modelled from the spec: the CanonicalNavigationEvent output schema (the
NavigationEvent interface is declared outside the provided sources). Fields
that a given normalization path leaves absent are modelled as Option set to
none by that path. -/
structure NavigationEvent where
  version : String
  initiatorType : String
  navigationType : Option String
  startTime : ℚ
  unloadEventStart : ℚ
  promptForUnload : ℚ
  redirectCount : Option ℕ
  redirectStart : ℚ
  redirectTime : ℚ
  workerStart : Option ℚ
  workerTime : Option ℚ
  fetchStart : ℚ
  domainLookupStart : ℚ
  dns : ℚ
  nextHopProtocol : Option String
  connectStart : ℚ
  connect : ℚ
  secureConnectionStart : ℚ
  tlsTime : ℚ
  requestStart : ℚ
  timeToFirstByte : ℚ
  responseStart : ℚ
  responseTime : ℚ
  domInteractive : ℚ
  domContentLoadedEventStart : ℚ
  domContentLoaded : ℚ
  domComplete : ℚ
  domProcessingTime : ℚ
  loadEventStart : ℚ
  loadEventTime : ℚ
  duration : ℚ
  headerSize : Option ℚ
  transferSize : Option ℚ
  compressionRatio : Option ℚ
  navigationTimingLevel : ℕ
  deriving DecidableEq

/-- Modelled from the spec: the fixed event-type identifier passed to the
recording callback (the constant is imported from a module outside the
provided sources; its exact value does not matter for the claims). -/
def PERFORMANCE_NAVIGATION_EVENT_TYPE : String :=
  "com.amazon.rum.performance_navigation_event"

/-- The plugin identifier constant. -/
def NAVIGATION_EVENT_PLUGIN_ID : String := "com.amazonaws.rum.navigation"

/-- Observable host interactions performed by the plugin: registering or
removing the window load listener, and invoking the recording callback
(identified by a numeric callback identity) with an event type and payload. -/
inductive HostAction where
  | addListener : HostAction
  | removeListener : HostAction
  | record : ℕ → String → NavigationEvent → HostAction
  deriving DecidableEq

/-- The event literal built by the Level 1 handler: offset fields follow the
rule raw > 0 ? raw - navigationStart : 0; duration fields are differences of
two boundaries, with responseTime and tlsTime guarded by their start boundary
being positive. -/
def eventDataNavigationTimingLevel1 (entryData : PerformanceTiming) : NavigationEvent :=
  let origin := entryData.navigationStart
  { version := "1.0.0"
    initiatorType := "navigation"
    navigationType := none
    startTime := 0
    unloadEventStart :=
      if entryData.unloadEventStart > 0 then entryData.unloadEventStart - origin else 0
    promptForUnload := entryData.unloadEventEnd - entryData.unloadEventStart
    redirectCount := none
    redirectStart :=
      if entryData.redirectStart > 0 then entryData.redirectStart - origin else 0
    redirectTime := entryData.redirectEnd - entryData.redirectStart
    workerStart := none
    workerTime := none
    fetchStart :=
      if entryData.fetchStart > 0 then entryData.fetchStart - origin else 0
    domainLookupStart :=
      if entryData.domainLookupStart > 0 then entryData.domainLookupStart - origin else 0
    dns := entryData.domainLookupEnd - entryData.domainLookupStart
    nextHopProtocol := none
    connectStart :=
      if entryData.connectStart > 0 then entryData.connectStart - origin else 0
    connect := entryData.connectEnd - entryData.connectStart
    secureConnectionStart :=
      if entryData.secureConnectionStart > 0 then entryData.secureConnectionStart - origin else 0
    tlsTime :=
      if entryData.secureConnectionStart > 0 then
        entryData.connectEnd - entryData.secureConnectionStart
      else 0
    requestStart :=
      if entryData.requestStart > 0 then entryData.requestStart - origin else 0
    timeToFirstByte := entryData.responseStart - entryData.requestStart
    responseStart :=
      if entryData.responseStart > 0 then entryData.responseStart - origin else 0
    responseTime :=
      if entryData.responseStart > 0 then entryData.responseEnd - entryData.responseStart else 0
    domInteractive :=
      if entryData.domInteractive > 0 then entryData.domInteractive - origin else 0
    domContentLoadedEventStart :=
      if entryData.domContentLoadedEventStart > 0 then
        entryData.domContentLoadedEventStart - origin
      else 0
    domContentLoaded :=
      entryData.domContentLoadedEventEnd - entryData.domContentLoadedEventStart
    domComplete :=
      if entryData.domComplete > 0 then entryData.domComplete - origin else 0
    domProcessingTime := entryData.loadEventStart - entryData.responseEnd
    loadEventStart :=
      if entryData.loadEventStart > 0 then entryData.loadEventStart - origin else 0
    loadEventTime := entryData.loadEventEnd - entryData.loadEventStart
    duration := entryData.loadEventEnd - entryData.navigationStart
    headerSize := none
    transferSize := none
    compressionRatio := none
    navigationTimingLevel := 1 }

/-- The event literal built by the Level 2 handler: values of the modern entry
are used as-is, durations are boundary differences with the same guards on
responseTime and tlsTime, plus worker time, redirect count, next hop protocol,
header size and compression ratio. -/
def eventDataNavigationTimingLevel2 (entryData : PerformanceNavigationTiming) : NavigationEvent :=
  { version := "1.0.0"
    initiatorType := entryData.initiatorType
    navigationType := some entryData.type
    startTime := entryData.startTime
    unloadEventStart := entryData.unloadEventStart
    promptForUnload := entryData.unloadEventEnd - entryData.unloadEventStart
    redirectCount := some entryData.redirectCount
    redirectStart := entryData.redirectStart
    redirectTime := entryData.redirectEnd - entryData.redirectStart
    workerStart := some entryData.workerStart
    workerTime :=
      some (if entryData.workerStart > 0 then entryData.fetchStart - entryData.workerStart else 0)
    fetchStart := entryData.fetchStart
    domainLookupStart := entryData.domainLookupStart
    dns := entryData.domainLookupEnd - entryData.domainLookupStart
    nextHopProtocol := some entryData.nextHopProtocol
    connectStart := entryData.connectStart
    connect := entryData.connectEnd - entryData.connectStart
    secureConnectionStart := entryData.secureConnectionStart
    tlsTime :=
      if entryData.secureConnectionStart > 0 then
        entryData.connectEnd - entryData.secureConnectionStart
      else 0
    requestStart := entryData.requestStart
    timeToFirstByte := entryData.responseStart - entryData.requestStart
    responseStart := entryData.responseStart
    responseTime :=
      if entryData.responseStart > 0 then entryData.responseEnd - entryData.responseStart else 0
    domInteractive := entryData.domInteractive
    domContentLoadedEventStart := entryData.domContentLoadedEventStart
    domContentLoaded :=
      entryData.domContentLoadedEventEnd - entryData.domContentLoadedEventStart
    domComplete := entryData.domComplete
    domProcessingTime := entryData.loadEventStart - entryData.responseEnd
    loadEventStart := entryData.loadEventStart
    loadEventTime := entryData.loadEventEnd - entryData.loadEventStart
    duration := entryData.duration
    headerSize := some (entryData.transferSize - entryData.encodedBodySize)
    transferSize := some entryData.transferSize
    compressionRatio :=
      some (if entryData.encodedBodySize > 0 then
        entryData.decodedBodySize / entryData.encodedBodySize
      else 0)
    navigationTimingLevel := 2 }

/-- The Level 1 handler: builds the Level 1 event from the flat timing record
and, when the recording callback is set, performs exactly one record call
(inside the source this happens in a zero-delay deferred closure; the timing
record it reads at that point is the argument here). With no callback set it
performs nothing. -/
def performanceNavigationEventHandlerTimingLevel1
    (recordEvent : Option ℕ) (timing : PerformanceTiming) : List HostAction :=
  match recordEvent with
  | some cb =>
      [HostAction.record cb PERFORMANCE_NAVIGATION_EVENT_TYPE
        (eventDataNavigationTimingLevel1 timing)]
  | none => []

/-- The Level 2 handler: builds the Level 2 event from the given entry and,
when the recording callback is set, performs exactly one record call. With no
callback set it performs nothing. -/
def performanceNavigationEventHandlerTimingLevel2
    (recordEvent : Option ℕ) (entryData : PerformanceNavigationTiming) : List HostAction :=
  match recordEvent with
  | some cb =>
      [HostAction.record cb PERFORMANCE_NAVIGATION_EVENT_TYPE
        (eventDataNavigationTimingLevel2 entryData)]
  | none => []

/-- The performance object of the host: the list returned by
getEntriesByType for the navigation type, and the legacy flat timing record. -/
structure Performance where
  navigationEntries : List PerformanceNavigationTiming
  timing : PerformanceTiming
  deriving DecidableEq

/-- The host window: its performance object, absent on hosts without the
performance API. -/
structure Window where
  performance : Option Performance
  deriving DecidableEq

/-- The capture dispatch: zero navigation entries select the Level 1 path,
otherwise the Level 2 path runs on the first entry and entries beyond the
first are ignored. -/
def eventListener (recordEvent : Option ℕ) (perf : Performance) : List HostAction :=
  match perf.navigationEntries with
  | [] => performanceNavigationEventHandlerTimingLevel1 recordEvent perf.timing
  | entry :: _ => performanceNavigationEventHandlerTimingLevel2 recordEvent entry

/-- The capture dispatch reached through the window: the global performance
object is the performance object of the window. The branch without a
performance object is unreachable from the capture paths of the plugin, which
only fire it when the load check found a navigation entry. -/
def eventListenerOnWindow (recordEvent : Option ℕ) (w : Window) : List HostAction :=
  match w.performance with
  | some perf => eventListener recordEvent perf
  | none => []

/-- The load-already-fired check: true when the window has a performance
object exposing at least one navigation entry whose loadEventEnd is non-zero
(the Boolean coercion of a number), false otherwise. -/
def hasTheWindowLoadEventFired (w : Window) : Bool :=
  match w.performance with
  | some perf =>
    match perf.navigationEntries with
    | navData :: _ => decide (navData.loadEventEnd ≠ 0)
    | [] => false
  | none => false

/-- The mutable fields of the plugin instance. -/
structure NavigationPlugin where
  pluginId : String
  enabled : Bool
  recordEvent : Option ℕ
  deriving DecidableEq

/-- The constructor: enabled is true, the recording callback is unset. -/
def NavigationPlugin.new : NavigationPlugin :=
  { pluginId := NAVIGATION_EVENT_PLUGIN_ID, enabled := true, recordEvent := none }

/-- The context handed to the load entry point, exposing the record callback
(modelled by its identity). -/
structure PluginContext where
  record : ℕ
  deriving DecidableEq

/-- The load entry point: stores the callback, then, when enabled, either
fires the capture dispatch directly (when the load check says the window load
event already fired) or registers the window load listener. -/
def NavigationPlugin.load
    (s : NavigationPlugin) (context : PluginContext) (w : Window) :
    NavigationPlugin × List HostAction :=
  let s := { s with recordEvent := some context.record }
  if s.enabled then
    if hasTheWindowLoadEventFired w then
      (s, eventListenerOnWindow s.recordEvent w)
    else
      (s, [HostAction.addListener])
  else
    (s, [])

/-- The enable operation: returns early when already enabled, otherwise flips
the flag and registers the window load listener. -/
def NavigationPlugin.enable (s : NavigationPlugin) : NavigationPlugin × List HostAction :=
  if s.enabled then
    (s, [])
  else
    ({ s with enabled := true }, [HostAction.addListener])

/-- The disable operation: returns early when already disabled, otherwise
flips the flag and removes the window load listener. -/
def NavigationPlugin.disable (s : NavigationPlugin) : NavigationPlugin × List HostAction :=
  if !s.enabled then
    (s, [])
  else
    ({ s with enabled := false }, [HostAction.removeListener])

/-- The plugin identifier accessor. -/
def NavigationPlugin.getPluginId (s : NavigationPlugin) : String :=
  s.pluginId

/-- A flat timing record with every field zero, the base for concrete inputs. -/
def timingZero : PerformanceTiming :=
  { navigationStart := 0, unloadEventStart := 0, unloadEventEnd := 0, redirectStart := 0,
    redirectEnd := 0, fetchStart := 0, domainLookupStart := 0, domainLookupEnd := 0,
    connectStart := 0, connectEnd := 0, secureConnectionStart := 0, requestStart := 0,
    responseStart := 0, responseEnd := 0, domInteractive := 0,
    domContentLoadedEventStart := 0, domContentLoadedEventEnd := 0, domComplete := 0,
    loadEventStart := 0, loadEventEnd := 0 }

/-- A modern entry with every numeric field zero, the base for concrete inputs. -/
def entryZero : PerformanceNavigationTiming :=
  { initiatorType := "navigation", type := "navigate", startTime := 0, unloadEventStart := 0,
    unloadEventEnd := 0, redirectCount := 0, redirectStart := 0, redirectEnd := 0,
    workerStart := 0, fetchStart := 0, domainLookupStart := 0, domainLookupEnd := 0,
    nextHopProtocol := "http/1.1", connectStart := 0, connectEnd := 0,
    secureConnectionStart := 0, requestStart := 0, responseStart := 0, responseEnd := 0,
    domInteractive := 0, domContentLoadedEventStart := 0, domContentLoadedEventEnd := 0,
    domComplete := 0, loadEventStart := 0, loadEventEnd := 0, duration := 0,
    transferSize := 0, encodedBodySize := 0, decodedBodySize := 0 }

/-- The offset rule raw > 0 ? raw - origin : 0 is nonnegative whenever the raw
timestamp is at or after the origin. -/
theorem offset_rule_nonneg {raw origin : ℚ} (h : origin ≤ raw) :
    0 ≤ (if raw > 0 then raw - origin else 0) := by
  by_cases hr : raw > 0
  · rw [if_pos hr]
    exact sub_nonneg.mpr h
  · rw [if_neg hr]

/-- Every record action emitted by the Level 1 handler carries the Level 1
event of the given timing record. -/
theorem handler1_record_mem {r : Option ℕ} {t : PerformanceTiming} {cb : ℕ} {ty : String}
    {ev : NavigationEvent}
    (h : HostAction.record cb ty ev ∈ performanceNavigationEventHandlerTimingLevel1 r t) :
    ev = eventDataNavigationTimingLevel1 t := by
  rcases r with _ | c
  · simp [performanceNavigationEventHandlerTimingLevel1] at h
  · simp [performanceNavigationEventHandlerTimingLevel1] at h
    exact h.2.2

/-- Every record action emitted by the Level 2 handler carries the Level 2
event of the given entry. -/
theorem handler2_record_mem {r : Option ℕ} {e : PerformanceNavigationTiming} {cb : ℕ}
    {ty : String} {ev : NavigationEvent}
    (h : HostAction.record cb ty ev ∈ performanceNavigationEventHandlerTimingLevel2 r e) :
    ev = eventDataNavigationTimingLevel2 e := by
  rcases r with _ | c
  · simp [performanceNavigationEventHandlerTimingLevel2] at h
  · simp [performanceNavigationEventHandlerTimingLevel2] at h
    exact h.2.2

/-- The capture dispatch never registers a listener. -/
theorem eventListenerOnWindow_no_addListener (r : Option ℕ) (w : Window) :
    HostAction.addListener ∉ eventListenerOnWindow r w := by
  rcases w with ⟨_ | ⟨entries, timing⟩⟩
  · simp [eventListenerOnWindow]
  · rcases entries with _ | ⟨e, rest⟩ <;> rcases r with _ | c <;>
      simp [eventListenerOnWindow, eventListener,
        performanceNavigationEventHandlerTimingLevel1,
        performanceNavigationEventHandlerTimingLevel2]

/-- With the recording callback set, the capture dispatch performs exactly one
record call through that callback. -/
theorem eventListener_some_record (cb : ℕ) (perf : Performance) :
    ∃ ev, eventListener (some cb) perf =
      [HostAction.record cb PERFORMANCE_NAVIGATION_EVENT_TYPE ev] := by
  rcases perf with ⟨entries, timing⟩
  rcases entries with _ | ⟨a, rest⟩
  · exact ⟨eventDataNavigationTimingLevel1 timing, rfl⟩
  · exact ⟨eventDataNavigationTimingLevel2 a, rfl⟩

/-- The load entry point stores the callback in every branch. -/
theorem load_stores_callback (s : NavigationPlugin) (context : PluginContext) (w : Window) :
    (NavigationPlugin.load s context w).1 = { s with recordEvent := some context.record } := by
  simp only [NavigationPlugin.load]
  split
  · split <;> rfl
  · rfl

/-- C1: for every capture firing, zero navigation entries select the Level 1
path and every event it emits has navigationTimingLevel 1, while one or more
entries select the Level 2 path on the first entry, entries beyond the first
being ignored, and every event it emits has navigationTimingLevel 2; the two
cases are exclusive and exhaustive. -/
theorem claim_C1_eventListener_dispatch (recordEvent : Option ℕ) (perf : Performance) :
    (perf.navigationEntries = [] →
      eventListener recordEvent perf =
        performanceNavigationEventHandlerTimingLevel1 recordEvent perf.timing ∧
      ∀ cb ty ev, HostAction.record cb ty ev ∈ eventListener recordEvent perf →
        ev.navigationTimingLevel = 1) ∧
    (∀ entry rest, perf.navigationEntries = entry :: rest →
      eventListener recordEvent perf =
        performanceNavigationEventHandlerTimingLevel2 recordEvent entry ∧
      ∀ cb ty ev, HostAction.record cb ty ev ∈ eventListener recordEvent perf →
        ev.navigationTimingLevel = 2) := by
  constructor
  · intro h
    have hdisp : eventListener recordEvent perf =
        performanceNavigationEventHandlerTimingLevel1 recordEvent perf.timing := by
      simp [eventListener, h]
    refine ⟨hdisp, fun cb ty ev hmem => ?_⟩
    rw [hdisp] at hmem
    rw [handler1_record_mem hmem]
    rfl
  · intro entry rest h
    have hdisp : eventListener recordEvent perf =
        performanceNavigationEventHandlerTimingLevel2 recordEvent entry := by
      simp [eventListener, h]
    refine ⟨hdisp, fun cb ty ev hmem => ?_⟩
    rw [hdisp] at hmem
    rw [handler2_record_mem hmem]
    rfl

/-- A performance object with no navigation entry. -/
def perfEmpty : Performance := { navigationEntries := [], timing := timingZero }

/-- A performance object with exactly one navigation entry. -/
def perfOne : Performance := { navigationEntries := [entryZero], timing := timingZero }

/-- C1 witness: the dispatch evaluated on a host with zero entries and on a
host with one entry. -/
theorem claim_C1_witness :
    perfEmpty.navigationEntries = [] ∧
    eventListener (some 7) perfEmpty =
      performanceNavigationEventHandlerTimingLevel1 (some 7) perfEmpty.timing ∧
    perfOne.navigationEntries = entryZero :: [] ∧
    eventListener (some 7) perfOne =
      performanceNavigationEventHandlerTimingLevel2 (some 7) entryZero := by
  have h1 := (claim_C1_eventListener_dispatch (some 7) perfEmpty).1 rfl
  have h2 := (claim_C1_eventListener_dispatch (some 7) perfOne).2 entryZero [] rfl
  exact ⟨rfl, h1.1, rfl, h2.1⟩

/-- C2: in the Level 1 path every offset field equals raw - navigationStart
when the raw absolute timestamp is positive and 0 otherwise, and is therefore
never negative when the raw timestamp is at or after navigationStart. -/
theorem claim_C2_level1_offset_fields (t : PerformanceTiming) :
    ((eventDataNavigationTimingLevel1 t).unloadEventStart =
        (if t.unloadEventStart > 0 then t.unloadEventStart - t.navigationStart else 0) ∧
      (eventDataNavigationTimingLevel1 t).redirectStart =
        (if t.redirectStart > 0 then t.redirectStart - t.navigationStart else 0) ∧
      (eventDataNavigationTimingLevel1 t).fetchStart =
        (if t.fetchStart > 0 then t.fetchStart - t.navigationStart else 0) ∧
      (eventDataNavigationTimingLevel1 t).domainLookupStart =
        (if t.domainLookupStart > 0 then t.domainLookupStart - t.navigationStart else 0) ∧
      (eventDataNavigationTimingLevel1 t).connectStart =
        (if t.connectStart > 0 then t.connectStart - t.navigationStart else 0) ∧
      (eventDataNavigationTimingLevel1 t).secureConnectionStart =
        (if t.secureConnectionStart > 0 then t.secureConnectionStart - t.navigationStart else 0) ∧
      (eventDataNavigationTimingLevel1 t).requestStart =
        (if t.requestStart > 0 then t.requestStart - t.navigationStart else 0) ∧
      (eventDataNavigationTimingLevel1 t).responseStart =
        (if t.responseStart > 0 then t.responseStart - t.navigationStart else 0) ∧
      (eventDataNavigationTimingLevel1 t).domInteractive =
        (if t.domInteractive > 0 then t.domInteractive - t.navigationStart else 0) ∧
      (eventDataNavigationTimingLevel1 t).domContentLoadedEventStart =
        (if t.domContentLoadedEventStart > 0 then
          t.domContentLoadedEventStart - t.navigationStart else 0) ∧
      (eventDataNavigationTimingLevel1 t).domComplete =
        (if t.domComplete > 0 then t.domComplete - t.navigationStart else 0) ∧
      (eventDataNavigationTimingLevel1 t).loadEventStart =
        (if t.loadEventStart > 0 then t.loadEventStart - t.navigationStart else 0)) ∧
    ((t.navigationStart ≤ t.unloadEventStart →
        0 ≤ (eventDataNavigationTimingLevel1 t).unloadEventStart) ∧
      (t.navigationStart ≤ t.redirectStart →
        0 ≤ (eventDataNavigationTimingLevel1 t).redirectStart) ∧
      (t.navigationStart ≤ t.fetchStart →
        0 ≤ (eventDataNavigationTimingLevel1 t).fetchStart) ∧
      (t.navigationStart ≤ t.domainLookupStart →
        0 ≤ (eventDataNavigationTimingLevel1 t).domainLookupStart) ∧
      (t.navigationStart ≤ t.connectStart →
        0 ≤ (eventDataNavigationTimingLevel1 t).connectStart) ∧
      (t.navigationStart ≤ t.secureConnectionStart →
        0 ≤ (eventDataNavigationTimingLevel1 t).secureConnectionStart) ∧
      (t.navigationStart ≤ t.requestStart →
        0 ≤ (eventDataNavigationTimingLevel1 t).requestStart) ∧
      (t.navigationStart ≤ t.responseStart →
        0 ≤ (eventDataNavigationTimingLevel1 t).responseStart) ∧
      (t.navigationStart ≤ t.domInteractive →
        0 ≤ (eventDataNavigationTimingLevel1 t).domInteractive) ∧
      (t.navigationStart ≤ t.domContentLoadedEventStart →
        0 ≤ (eventDataNavigationTimingLevel1 t).domContentLoadedEventStart) ∧
      (t.navigationStart ≤ t.domComplete →
        0 ≤ (eventDataNavigationTimingLevel1 t).domComplete) ∧
      (t.navigationStart ≤ t.loadEventStart →
        0 ≤ (eventDataNavigationTimingLevel1 t).loadEventStart)) := by
  constructor
  · exact ⟨rfl, rfl, rfl, rfl, rfl, rfl, rfl, rfl, rfl, rfl, rfl, rfl⟩
  · exact ⟨fun h => offset_rule_nonneg h, fun h => offset_rule_nonneg h,
      fun h => offset_rule_nonneg h, fun h => offset_rule_nonneg h,
      fun h => offset_rule_nonneg h, fun h => offset_rule_nonneg h,
      fun h => offset_rule_nonneg h, fun h => offset_rule_nonneg h,
      fun h => offset_rule_nonneg h, fun h => offset_rule_nonneg h,
      fun h => offset_rule_nonneg h, fun h => offset_rule_nonneg h⟩

/-- A flat timing record whose unload start lies after navigation start. -/
def tC2w : PerformanceTiming :=
  { timingZero with navigationStart := 1000, unloadEventStart := 1005 }

/-- C2 witness: the nonnegativity conclusion evaluated on a concrete record
whose raw unload timestamp is at or after navigation start. -/
theorem claim_C2_witness :
    tC2w.navigationStart ≤ tC2w.unloadEventStart ∧
    0 ≤ (eventDataNavigationTimingLevel1 tC2w).unloadEventStart := by
  have hle : tC2w.navigationStart ≤ tC2w.unloadEventStart := by norm_num [tC2w, timingZero]
  exact ⟨hle, (claim_C2_level1_offset_fields tC2w).2.1 hle⟩

/-- A flat timing record with responseStart 0 and responseEnd 7. -/
def tC3 : PerformanceTiming := { timingZero with responseEnd := 7 }

/-- C3 counterexample: with responseStart 0 and responseEnd 7 the emitted
responseTime is 0, not responseEnd - responseStart = 7, because responseTime
is guarded by responseStart being positive. -/
theorem claim_C3_counterexample :
    ¬ ((eventDataNavigationTimingLevel1 tC3).responseTime =
      tC3.responseEnd - tC3.responseStart) := by
  norm_num [eventDataNavigationTimingLevel1, tC3, timingZero]

/-- C3 amended: in the Level 1 path the duration fields promptForUnload,
redirectTime, dns, connect, domContentLoaded, domProcessingTime,
loadEventTime and duration equal the unguarded difference of their two
boundaries, and timeToFirstByte always equals responseStart - requestStart
unguarded; responseTime however is guarded, equal to responseEnd -
responseStart only when responseStart is positive and 0 otherwise. -/
theorem claim_C3_level1_durations (t : PerformanceTiming) :
    (eventDataNavigationTimingLevel1 t).promptForUnload =
      t.unloadEventEnd - t.unloadEventStart ∧
    (eventDataNavigationTimingLevel1 t).redirectTime = t.redirectEnd - t.redirectStart ∧
    (eventDataNavigationTimingLevel1 t).dns = t.domainLookupEnd - t.domainLookupStart ∧
    (eventDataNavigationTimingLevel1 t).connect = t.connectEnd - t.connectStart ∧
    (eventDataNavigationTimingLevel1 t).responseTime =
      (if t.responseStart > 0 then t.responseEnd - t.responseStart else 0) ∧
    (eventDataNavigationTimingLevel1 t).domContentLoaded =
      t.domContentLoadedEventEnd - t.domContentLoadedEventStart ∧
    (eventDataNavigationTimingLevel1 t).domProcessingTime =
      t.loadEventStart - t.responseEnd ∧
    (eventDataNavigationTimingLevel1 t).loadEventTime = t.loadEventEnd - t.loadEventStart ∧
    (eventDataNavigationTimingLevel1 t).duration = t.loadEventEnd - t.navigationStart ∧
    (eventDataNavigationTimingLevel1 t).timeToFirstByte = t.responseStart - t.requestStart :=
  ⟨rfl, rfl, rfl, rfl, rfl, rfl, rfl, rfl, rfl, rfl⟩

/-- A flat timing record with unloadEventStart 0 and unloadEventEnd 5. -/
def tC4 : PerformanceTiming := { timingZero with unloadEventEnd := 5 }

/-- C4 counterexample: promptForUnload has earlier boundary unloadEventStart
0 but is recorded as 5, not 0. -/
theorem claim_C4_counterexample :
    tC4.unloadEventStart = 0 ∧
    ¬ ((eventDataNavigationTimingLevel1 tC4).promptForUnload = 0) := by
  constructor
  · rfl
  · norm_num [eventDataNavigationTimingLevel1, tC4, timingZero]

/-- C4 amended: in both paths only responseTime and tlsTime, and in the Level
2 path workerTime, default to 0 when their guarding start boundary is 0;
every other computed duration field, the Level 1 total duration included, is
the unguarded difference of its boundaries, so with an earlier boundary of 0
it is recorded as the later boundary itself; the Level 2 total duration is
not computed from boundaries at all but copied verbatim from the entry. -/
theorem claim_C4_zero_boundary_durations
    (t : PerformanceTiming) (e : PerformanceNavigationTiming) :
    (t.responseStart = 0 → (eventDataNavigationTimingLevel1 t).responseTime = 0) ∧
    (t.secureConnectionStart = 0 → (eventDataNavigationTimingLevel1 t).tlsTime = 0) ∧
    (t.unloadEventStart = 0 →
      (eventDataNavigationTimingLevel1 t).promptForUnload = t.unloadEventEnd) ∧
    (t.redirectStart = 0 →
      (eventDataNavigationTimingLevel1 t).redirectTime = t.redirectEnd) ∧
    (t.domainLookupStart = 0 →
      (eventDataNavigationTimingLevel1 t).dns = t.domainLookupEnd) ∧
    (t.connectStart = 0 → (eventDataNavigationTimingLevel1 t).connect = t.connectEnd) ∧
    (t.domContentLoadedEventStart = 0 →
      (eventDataNavigationTimingLevel1 t).domContentLoaded = t.domContentLoadedEventEnd) ∧
    (t.responseEnd = 0 →
      (eventDataNavigationTimingLevel1 t).domProcessingTime = t.loadEventStart) ∧
    (t.loadEventStart = 0 →
      (eventDataNavigationTimingLevel1 t).loadEventTime = t.loadEventEnd) ∧
    (t.navigationStart = 0 →
      (eventDataNavigationTimingLevel1 t).duration = t.loadEventEnd) ∧
    (e.responseStart = 0 → (eventDataNavigationTimingLevel2 e).responseTime = 0) ∧
    (e.secureConnectionStart = 0 → (eventDataNavigationTimingLevel2 e).tlsTime = 0) ∧
    (e.workerStart = 0 → (eventDataNavigationTimingLevel2 e).workerTime = some 0) ∧
    (e.unloadEventStart = 0 →
      (eventDataNavigationTimingLevel2 e).promptForUnload = e.unloadEventEnd) ∧
    (e.redirectStart = 0 →
      (eventDataNavigationTimingLevel2 e).redirectTime = e.redirectEnd) ∧
    (e.domainLookupStart = 0 →
      (eventDataNavigationTimingLevel2 e).dns = e.domainLookupEnd) ∧
    (e.connectStart = 0 → (eventDataNavigationTimingLevel2 e).connect = e.connectEnd) ∧
    (e.domContentLoadedEventStart = 0 →
      (eventDataNavigationTimingLevel2 e).domContentLoaded = e.domContentLoadedEventEnd) ∧
    (e.responseEnd = 0 →
      (eventDataNavigationTimingLevel2 e).domProcessingTime = e.loadEventStart) ∧
    (e.loadEventStart = 0 →
      (eventDataNavigationTimingLevel2 e).loadEventTime = e.loadEventEnd) ∧
    (eventDataNavigationTimingLevel2 e).duration = e.duration := by
  refine ⟨fun h => ?_, fun h => ?_, fun h => ?_, fun h => ?_, fun h => ?_, fun h => ?_,
    fun h => ?_, fun h => ?_, fun h => ?_, fun h => ?_, fun h => ?_, fun h => ?_,
    fun h => ?_, fun h => ?_, fun h => ?_, fun h => ?_, fun h => ?_, fun h => ?_,
    fun h => ?_, fun h => ?_, rfl⟩ <;>
    simp [eventDataNavigationTimingLevel1, eventDataNavigationTimingLevel2, h]

/-- C4 witness: the guarded responseTime conclusion evaluated on the all-zero
record. -/
theorem claim_C4_witness :
    timingZero.responseStart = 0 ∧
    (eventDataNavigationTimingLevel1 timingZero).responseTime = 0 :=
  ⟨rfl, (claim_C4_zero_boundary_durations timingZero entryZero).1 rfl⟩

/-- C5: in the Level 2 path the header size equals transferSize minus
encodedBodySize, and the compression ratio is decodedBodySize over
encodedBodySize when encodedBodySize is positive and 0 when encodedBodySize
is 0, so the division branch is never taken on a 0 divisor. -/
theorem claim_C5_level2_transfer_metrics (e : PerformanceNavigationTiming) :
    (eventDataNavigationTimingLevel2 e).headerSize =
      some (e.transferSize - e.encodedBodySize) ∧
    (0 < e.encodedBodySize →
      NavigationEvent.compressionRatio (eventDataNavigationTimingLevel2 e) =
        some (e.decodedBodySize / e.encodedBodySize)) ∧
    (e.encodedBodySize = 0 →
      NavigationEvent.compressionRatio (eventDataNavigationTimingLevel2 e) = some 0) := by
  refine ⟨rfl, fun h => ?_, fun h => ?_⟩
  · show some (if e.encodedBodySize > 0 then e.decodedBodySize / e.encodedBodySize else 0) =
      some (e.decodedBodySize / e.encodedBodySize)
    rw [if_pos h]
  · show some (if e.encodedBodySize > 0 then e.decodedBodySize / e.encodedBodySize else 0) =
      some 0
    rw [if_neg (by rw [h]; exact lt_irrefl 0)]

/-- A modern entry with transferSize 500, encodedBodySize 300 and
decodedBodySize 900. -/
def entryC5 : PerformanceNavigationTiming :=
  { entryZero with transferSize := 500, encodedBodySize := 300, decodedBodySize := 900 }

/-- C5 witness: the scenario transferSize 500, encodedBodySize 300,
decodedBodySize 900 yields headerSize 200 and compression ratio 3. -/
theorem claim_C5_witness :
    (0 : ℚ) < entryC5.encodedBodySize ∧
    (eventDataNavigationTimingLevel2 entryC5).headerSize = some 200 ∧
    NavigationEvent.compressionRatio (eventDataNavigationTimingLevel2 entryC5) = some 3 := by
  have h := claim_C5_level2_transfer_metrics entryC5
  have hpos : (0 : ℚ) < entryC5.encodedBodySize := by norm_num [entryC5, entryZero]
  refine ⟨hpos, ?_, ?_⟩
  · rw [h.1]
    norm_num [entryC5, entryZero]
  · rw [h.2.1 hpos]
    norm_num [entryC5, entryZero]

/-- C6: the load-already-fired check returns true exactly when the window has
a performance object exposing at least one navigation entry whose
loadEventEnd is non-zero, and returns false whenever the performance API is
absent or the entry list is empty. -/
theorem claim_C6_hasTheWindowLoadEventFired (w : Window) :
    (hasTheWindowLoadEventFired w = true ↔
      ∃ perf entry rest, w.performance = some perf ∧
        perf.navigationEntries = entry :: rest ∧ entry.loadEventEnd ≠ 0) ∧
    (w.performance = none → hasTheWindowLoadEventFired w = false) ∧
    (∀ perf, w.performance = some perf → perf.navigationEntries = [] →
      hasTheWindowLoadEventFired w = false) := by
  rcases w with ⟨_ | ⟨entries, timing⟩⟩
  · refine ⟨?_, fun _ => rfl, fun perf h => Option.noConfusion h⟩
    simp [hasTheWindowLoadEventFired]
  · rcases entries with _ | ⟨e, rest⟩
    · refine ⟨?_, fun h => Option.noConfusion h, fun perf hperf hents => rfl⟩
      constructor
      · intro hfalse
        exact Bool.noConfusion hfalse
      · rintro ⟨perf, entry, rest2, hperf, hent, hne⟩
        cases Option.some.inj hperf
        exact List.noConfusion hent
    · refine ⟨?_, fun h => Option.noConfusion h, fun perf hperf hents => ?_⟩
      · have hshow : hasTheWindowLoadEventFired
            ⟨some ⟨e :: rest, timing⟩⟩ = decide (e.loadEventEnd ≠ 0) := rfl
        rw [hshow, decide_eq_true_eq]
        constructor
        · intro hne
          exact ⟨⟨e :: rest, timing⟩, e, rest, rfl, rfl, hne⟩
        · rintro ⟨perf, entry, rest2, hperf, hent, hne⟩
          cases Option.some.inj hperf
          rw [List.cons.injEq] at hent
          rw [hent.1]
          exact hne
      · cases Option.some.inj hperf
        exact List.noConfusion hents

/-- A window without a performance object. -/
def wNoPerf : Window := { performance := none }

/-- C6 witness: on a window without a performance API the check returns
false. -/
theorem claim_C6_witness :
    wNoPerf.performance = none ∧ hasTheWindowLoadEventFired wNoPerf = false :=
  ⟨rfl, (claim_C6_hasTheWindowLoadEventFired wNoPerf).2.1 rfl⟩

/-- C7: every call to the load entry point stores the recording callback;
when the plugin is enabled and the load signal already fired, the capture
dispatch runs directly and no load listener is registered; when enabled and
the load signal has not fired, the load listener is registered and no record
call happens at that moment. -/
theorem claim_C7_load (s : NavigationPlugin) (context : PluginContext) (w : Window) :
    (NavigationPlugin.load s context w).1.recordEvent = some context.record ∧
    (s.enabled = true → hasTheWindowLoadEventFired w = true →
      (NavigationPlugin.load s context w).2 =
        eventListenerOnWindow (some context.record) w ∧
      HostAction.addListener ∉ (NavigationPlugin.load s context w).2) ∧
    (s.enabled = true → hasTheWindowLoadEventFired w = false →
      (NavigationPlugin.load s context w).2 = [HostAction.addListener] ∧
      ∀ cb ty ev, HostAction.record cb ty ev ∉ (NavigationPlugin.load s context w).2) := by
  refine ⟨by rw [load_stores_callback], fun hen hf => ?_, fun hen hf => ?_⟩
  · have hdisp : (NavigationPlugin.load s context w).2 =
        eventListenerOnWindow (some context.record) w := by
      simp [NavigationPlugin.load, hen, hf]
    refine ⟨hdisp, ?_⟩
    rw [hdisp]
    exact eventListenerOnWindow_no_addListener (some context.record) w
  · have hdisp : (NavigationPlugin.load s context w).2 = [HostAction.addListener] := by
      simp [NavigationPlugin.load, hen, hf]
    refine ⟨hdisp, fun cb ty ev => ?_⟩
    rw [hdisp]
    simp

/-- A modern entry whose loadEventEnd is non-zero. -/
def entryLoaded : PerformanceNavigationTiming := { entryZero with loadEventEnd := 3 }

/-- A window whose navigation entry reports a non-zero loadEventEnd. -/
def wFired : Window :=
  { performance := some { navigationEntries := [entryLoaded], timing := timingZero } }

/-- C7 witness: loading an enabled plugin on a window whose load event
already fired runs the capture dispatch directly and registers no listener. -/
theorem claim_C7_witness :
    NavigationPlugin.new.enabled = true ∧
    hasTheWindowLoadEventFired wFired = true ∧
    (NavigationPlugin.load NavigationPlugin.new ⟨7⟩ wFired).2 =
      eventListenerOnWindow (some 7) wFired ∧
    HostAction.addListener ∉ (NavigationPlugin.load NavigationPlugin.new ⟨7⟩ wFired).2 := by
  have hfired : hasTheWindowLoadEventFired wFired = true := by
    have hshow : hasTheWindowLoadEventFired wFired =
        decide (entryLoaded.loadEventEnd ≠ 0) := rfl
    rw [hshow, decide_eq_true_eq]
    norm_num [entryLoaded, entryZero]
  have h := (claim_C7_load NavigationPlugin.new ⟨7⟩ wFired).2.1 rfl hfired
  exact ⟨rfl, hfired, h.1, h.2⟩

/-- C8: enabling an already enabled plugin and disabling an already disabled
plugin are no-ops with no host interaction, and a second enable or disable in
a row never performs a second registration or removal. -/
theorem claim_C8_enable_disable_idempotent (s : NavigationPlugin) :
    (s.enabled = true → NavigationPlugin.enable s = (s, [])) ∧
    (s.enabled = false → NavigationPlugin.disable s = (s, [])) ∧
    NavigationPlugin.enable (NavigationPlugin.enable s).1 = ((NavigationPlugin.enable s).1, []) ∧
    NavigationPlugin.disable (NavigationPlugin.disable s).1 =
      ((NavigationPlugin.disable s).1, []) := by
  rcases s with ⟨pid, en, rec⟩
  cases en <;> simp [NavigationPlugin.enable, NavigationPlugin.disable]

/-- C8 witness: enabling the freshly constructed plugin, which is already
enabled, is a no-op. -/
theorem claim_C8_witness :
    NavigationPlugin.new.enabled = true ∧
    NavigationPlugin.enable NavigationPlugin.new = (NavigationPlugin.new, []) :=
  ⟨rfl, (claim_C8_enable_disable_idempotent NavigationPlugin.new).1 rfl⟩

/-- C9: with the recording callback unset, both normalization handlers and
the capture dispatch perform no record call at all: the event is silently
dropped, no action reaches the host and nothing is queued. -/
theorem claim_C9_unset_callback_drops (t : PerformanceTiming)
    (e : PerformanceNavigationTiming) (perf : Performance) :
    performanceNavigationEventHandlerTimingLevel1 none t = [] ∧
    performanceNavigationEventHandlerTimingLevel2 none e = [] ∧
    eventListener none perf = [] := by
  refine ⟨rfl, rfl, ?_⟩
  rcases perf with ⟨entries, timing⟩
  rcases entries with _ | ⟨a, rest⟩ <;> rfl

/-- C10: the load entry point stores the callback before consulting the
enabled flag, so a disabled plugin still retains it; a later enable registers
the listener and a subsequent firing of the capture dispatch performs a
record call through the stored callback. -/
theorem claim_C10_callback_stored_while_disabled
    (s : NavigationPlugin) (context : PluginContext) (w : Window) (perf : Performance) :
    (NavigationPlugin.load s context w).1.recordEvent = some context.record ∧
    (s.enabled = false →
      (NavigationPlugin.load s context w).2 = [] ∧
      (NavigationPlugin.enable (NavigationPlugin.load s context w).1).2 =
        [HostAction.addListener] ∧
      (NavigationPlugin.enable (NavigationPlugin.load s context w).1).1.recordEvent =
        some context.record ∧
      ∃ ev, eventListener (some context.record) perf =
        [HostAction.record context.record PERFORMANCE_NAVIGATION_EVENT_TYPE ev]) := by
  refine ⟨by rw [load_stores_callback], fun hdis => ?_⟩
  rcases s with ⟨pid, en, rec⟩
  cases en
  · refine ⟨?_, ?_, ?_, eventListener_some_record context.record perf⟩
    · simp [NavigationPlugin.load]
    · simp [NavigationPlugin.load, NavigationPlugin.enable]
    · simp [NavigationPlugin.load, NavigationPlugin.enable]
  · exact Bool.noConfusion hdis

/-- A disabled plugin with no stored callback. -/
def sDisabled : NavigationPlugin := { NavigationPlugin.new with enabled := false }

/-- C10 witness: loading a disabled plugin stores the callback and performs
no host interaction. -/
theorem claim_C10_witness :
    sDisabled.enabled = false ∧
    (NavigationPlugin.load sDisabled ⟨7⟩ wNoPerf).1.recordEvent = some 7 ∧
    (NavigationPlugin.load sDisabled ⟨7⟩ wNoPerf).2 = [] := by
  have h := claim_C10_callback_stored_while_disabled sDisabled ⟨7⟩ wNoPerf perfEmpty
  exact ⟨rfl, h.1, (h.2 rfl).1⟩
